import Mathlib

/-!
Formal model of the Weather-Forecast backend's caching weather-lookup service.

The development shallowly embeds:
  * `formatWeatherData` and `getWeatherByCity` from
    `backend/src/services/weatherService.js`;
  * the `node-cache` instance those functions use (`get`/`set` with `stdTTL`
    and `maxKeys`, lazy expiry on `get`, ECACHEFULL rejection on `set` when
    the key count has reached `maxKeys`);
  * the `getWeatherByCity` request handler from
    `backend/src/controllers/weatherController.js` (input validation; on a
    lookup failure its catch block itself throws, so no error status is
    sent).

Numbers coming from JSON are modelled as rationals, JavaScript's
`Math.round` as rounding half toward positive infinity, and time as a
natural-number millisecond clock passed explicitly.  The upstream axios
call is a parameter: a function from the queried city to the axios result.
-/

/-- JavaScript `Math.round`: round to the nearest integer, halves toward
positive infinity. -/
def jsRound (x : ℚ) : Int := Int.floor (x + 1/2)

/-- JavaScript `String.prototype.toLowerCase`, character by character
(ASCII case mapping suffices for the city names in scope). -/
def jsToLower (s : String) : String := ⟨s.data.map Char.toLower⟩

/-- JavaScript `String.prototype.trim`: strip leading and trailing
whitespace. -/
def jsTrim (s : String) : String :=
  ⟨((s.data.dropWhile Char.isWhitespace).reverse.dropWhile Char.isWhitespace).reverse⟩

/-- A JavaScript number produced by `Math.round`: an integer, or `NaN` when
the rounded expression involved `undefined`. -/
inductive JsInt where
  | int (n : Int)
  | nan
deriving DecidableEq

/-- JavaScript `Math.round` applied to a possibly-undefined expression:
`Math.round(undefined)` — and of any arithmetic on `undefined` — is `NaN`. -/
def jsRoundU : Option ℚ → JsInt
  | some q => .int (jsRound q)
  | none => .nan

/-- Upstream `current.condition` object as the code observes it through
optional chaining: either expected field may be absent. -/
structure Condition where
  text : Option String
  icon : Option String
deriving DecidableEq

/-- Upstream `current` object of a `current.json` payload.  The service
never validates the shape and reads every field through optional chaining,
so each expected field may be absent; a present field carries the JSON type
the provider uses (primitive-type mismatches are outside the model). -/
structure Current where
  temp_c : Option ℚ
  feelslike_c : Option ℚ
  condition : Option Condition
  pressure_mb : Option ℚ
  humidity : Option ℚ
  wind_kph : Option ℚ
  wind_degree : Option ℚ
  wind_dir : Option String
  vis_km : Option ℚ
  air_quality : Option (List (String × ℚ))
  is_day : Option Int
deriving DecidableEq

/-- Upstream `location` object of a `current.json` payload, with every
field optional for the same reason as `Current`. -/
structure Location where
  name : Option String
  country : Option String
  lat : Option ℚ
  lon : Option ℚ
  localtime : Option String
deriving DecidableEq

/-- A truthy `response.data` value, recorded through the only reads the
code performs on it: `data.location`, `data.current`, and their
optional-chained fields.  Any truthy JSON body — well-formed or
schema-garbage — is represented by which expected pieces it carries; for
example the body `{"foo": 1}` is `{ location := none, current := none }`. -/
structure RawWeather where
  location : Option Location
  current : Option Current
deriving DecidableEq

/-- The `coordinates` field produced by `formatWeatherData`. -/
structure Coordinates where
  lat : Option ℚ
  lon : Option ℚ
deriving DecidableEq

/-- The `weather` field produced by `formatWeatherData`. -/
structure WeatherDesc where
  main : Option String
  description : Option String
  icon : Option String
deriving DecidableEq

/-- The `main` field produced by `formatWeatherData`.  The rounded fields
are `NaN` when the body lacked the number they round. -/
structure MainReadings where
  temp : JsInt
  feels_like : JsInt
  temp_min : JsInt
  temp_max : JsInt
  pressure : Option ℚ
  humidity : Option ℚ
deriving DecidableEq

/-- The `wind` field produced by `formatWeatherData`. -/
structure Wind where
  speed : Option ℚ
  deg : Option ℚ
  dir : Option String
deriving DecidableEq

/-- The normalized weather object produced by `formatWeatherData` and stored
in the cache.  `timestamp` models `new Date().toISOString()` as the current
clock value.  Note the object has no `fromCache` field: that flag is added
only on the value returned to the caller. -/
structure NormalizedWeather where
  city : Option String
  country : Option String
  coordinates : Coordinates
  weather : WeatherDesc
  main : MainReadings
  wind : Wind
  visibility : Option ℚ
  last_updated : Option String
  aqi : Option (List (String × ℚ))
  is_day : String
  timestamp : Nat
deriving DecidableEq

/-- Embedding of `formatWeatherData` from `weatherService.js`.  Every read
is optional-chained in the source, so a missing piece of the body becomes
`undefined` (`none`) — or `NaN` after rounding — and never an error. -/
def formatWeatherData (data : RawWeather) (now : Nat) : NormalizedWeather :=
  { city := data.location.bind Location.name
    country := data.location.bind Location.country
    coordinates := { lat := data.location.bind Location.lat
                     lon := data.location.bind Location.lon }
    weather := { main := (data.current.bind Current.condition).bind Condition.text
                 description := (data.current.bind Current.condition).bind Condition.text
                 icon := (data.current.bind Current.condition).bind Condition.icon }
    main := { temp := jsRoundU (data.current.bind Current.temp_c)
              feels_like := jsRoundU (data.current.bind Current.feelslike_c)
              temp_min := jsRoundU ((data.current.bind Current.temp_c).map (fun q => q - 2))
              temp_max := jsRoundU ((data.current.bind Current.temp_c).map (fun q => q + 2))
              pressure := data.current.bind Current.pressure_mb
              humidity := data.current.bind Current.humidity }
    wind := { speed := data.current.bind Current.wind_kph
              deg := data.current.bind Current.wind_degree
              dir := data.current.bind Current.wind_dir }
    visibility := data.current.bind Current.vis_km
    last_updated := data.location.bind Location.localtime
    aqi := data.current.bind Current.air_quality
    is_day := if data.current.bind Current.is_day = some 1 then "day" else "night"
    timestamp := now }

/-- One key of the `node-cache` store: value plus the absolute expiry time
`t` in milliseconds (`t = now + stdTTL * 1000` at insertion). -/
structure CacheEntry where
  key : String
  value : NormalizedWeather
  expiry : Nat
deriving DecidableEq

/-- The `node-cache` instance of `weatherService.js`: the stored keys in
insertion order together with the `stdTTL` (seconds) and `maxKeys` options. -/
structure NodeCache where
  entries : List CacheEntry
  stdTTL : Nat
  maxKeys : Nat
deriving DecidableEq

/-- node-cache expiry check: a key is expired when its `t` is nonzero and
lies strictly in the past. -/
def entryExpired (e : CacheEntry) (now : Nat) : Bool :=
  e.expiry != 0 && decide (e.expiry < now)

/-- Raw lookup of a key in the store. -/
def ncFind (c : NodeCache) (k : String) : Option CacheEntry :=
  c.entries.find? (fun e => e.key == k)

/-- node-cache `get`: returns the live value for the key; an expired key is
deleted lazily and reported as a miss. -/
def ncGet (c : NodeCache) (k : String) (now : Nat) :
    Option NormalizedWeather × NodeCache :=
  match ncFind c k with
  | none => (none, c)
  | some e =>
    if entryExpired e now then
      (none, { c with entries := c.entries.eraseP (fun e2 => e2.key == k) })
    else
      (some e.value, c)

/-- Message of the node-cache ECACHEFULL error. -/
def ecachefullMsg : String := "Cache max keys amount exceeded"

/-- node-cache `set`: throws ECACHEFULL when the key count has already
reached `maxKeys` (checked before anything else), otherwise overwrites an
existing key or appends a fresh one, with expiry `now + stdTTL * 1000`. -/
def ncSet (c : NodeCache) (k : String) (v : NormalizedWeather) (now : Nat) :
    Except String NodeCache :=
  if c.maxKeys ≤ c.entries.length then
    .error ecachefullMsg
  else if (ncFind c k).isSome then
    .ok { c with entries := c.entries.map (fun e =>
            if e.key == k then
              { key := e.key, value := v, expiry := now + c.stdTTL * 1000 }
            else e) }
  else
    .ok { c with entries :=
            c.entries ++ [{ key := k, value := v, expiry := now + c.stdTTL * 1000 }] }

/-- Result of the axios GET to the upstream provider. -/
inductive UpstreamResult where
  /-- axios resolved (2xx status): the status and the body; `none` models a
  falsy `response.data` (undefined, null, empty string), `some d` any truthy
  body, well-formed or not — the code checks only truthiness. -/
  | resolved (status : Nat) (body : Option RawWeather)
  /-- axios rejected (non-2xx response or network failure): the optional
  provider message found at `error.response.data.error.message`, and the
  axios error message (`error.message`). -/
  | rejected (providerMessage : Option String) (errorMessage : String)
deriving DecidableEq

/-- JavaScript `error.response?.data?.error?.message || error.message`:
the provider message when present and truthy, else the error message. -/
def providerOrErr (pm : Option String) (em : String) : String :=
  match pm with
  | some m => if m = "" then em else m
  | none => em

/-- Payload returned to the controller: the normalized weather data together
with the `fromCache` flag spread onto the returned copy. -/
structure LookupResult where
  data : NormalizedWeather
  fromCache : Bool
deriving DecidableEq

instance {ε α : Type} [DecidableEq ε] [DecidableEq α] : DecidableEq (Except ε α) :=
  fun a b =>
    match a, b with
    | .ok x, .ok y => decidable_of_iff (x = y) (by simp)
    | .error x, .error y => decidable_of_iff (x = y) (by simp)
    | .ok _, .error _ => isFalse (fun h => Except.noConfusion h)
    | .error _, .ok _ => isFalse (fun h => Except.noConfusion h)

/-- Observable outcome of one service-level `getWeatherByCity` call: the
returned value or thrown error message, the cache state afterwards, and
whether the upstream provider was called. -/
structure LookupOutcome where
  result : Except String LookupResult
  cache : NodeCache
  upstreamCalled : Bool
deriving DecidableEq

/-- Fixed message prefix of every error thrown by the service. -/
def failPre : String := "Failed to fetch weather data: "

/-- Cache key computation of `getWeatherByCity`: the template literal
`weather_${city.toLowerCase()}`. -/
def serviceCacheKey (city : String) : String := "weather_" ++ jsToLower city

/-- Embedding of the service-level `getWeatherByCity` of
`weatherService.js`, parameterised by the upstream call and the clock. -/
def getWeatherByCity (c : NodeCache) (upstream : String → UpstreamResult)
    (city : String) (now : Nat) : LookupOutcome :=
  match ncGet c (serviceCacheKey city) now with
  | (some cachedData, c1) =>
    { result := .ok { data := cachedData, fromCache := true }
      cache := c1, upstreamCalled := false }
  | (none, c1) =>
    match upstream city with
    | .resolved status body =>
      match body with
      | some d =>
        if status = 200 then
          match ncSet c1 (serviceCacheKey city) (formatWeatherData d now) now with
          | .ok c2 =>
            { result := .ok { data := formatWeatherData d now, fromCache := false }
              cache := c2, upstreamCalled := true }
          | .error m =>
            { result := .error (failPre ++ m), cache := c1, upstreamCalled := true }
        else
          { result := .error (failPre ++ "Invalid response from weather API")
            cache := c1, upstreamCalled := true }
      | none =>
        { result := .error (failPre ++ "Invalid response from weather API")
          cache := c1, upstreamCalled := true }
    | .rejected pm em =>
      { result := .error (failPre ++ providerOrErr pm em)
        cache := c1, upstreamCalled := true }

/-- Outcome of the controller toward the client: a success JSON (data plus
the `meta.cached` flag), an error JSON with its status code and message, or
no HTTP response at all because the handler itself threw a JavaScript
error. -/
inductive ControllerResponse where
  | success (data : LookupResult) (metaCached : Bool)
  | failure (status : Nat) (message : String)
  | crashed (jsError : String)
deriving DecidableEq

/-- Observable outcome of one controller request. -/
structure ControllerOutcome where
  response : ControllerResponse
  cache : NodeCache
  upstreamCalled : Bool
deriving DecidableEq

/-- Controller 400 message for a missing or empty city parameter. -/
def invalidCityMsg : String := "Please provide a valid city name"

/-- Embedding of the `getWeatherByCity` request handler of
`weatherController.js`.  It validates the `city` query parameter and calls
the service.  When the service throws, the catch block's first statement
interpolates `city` into a log message; `city` is declared with `const`
inside the `try` block and is out of scope there, so the handler raises a
ReferenceError before reaching its 404/500 logic: a failed lookup sends no
HTTP response at all, and the 404/500 branches are unreachable. -/
def handleGetWeatherByCity (c : NodeCache) (upstream : String → UpstreamResult)
    (cityParam : Option String) (now : Nat) : ControllerOutcome :=
  match cityParam with
  | none =>
    { response := .failure 400 invalidCityMsg, cache := c, upstreamCalled := false }
  | some city =>
    if jsTrim city = "" then
      { response := .failure 400 invalidCityMsg, cache := c, upstreamCalled := false }
    else
      match getWeatherByCity c upstream city now with
      | out =>
        match out.result with
        | .ok wd =>
          { response := .success wd wd.fromCache
            cache := out.cache, upstreamCalled := out.upstreamCalled }
        | .error _ =>
          { response := .crashed ("ReferenceError: city is not defined")
            cache := out.cache, upstreamCalled := out.upstreamCalled }

/-- The London payload of the specification's concrete test vector: a fully
well-formed truthy body. -/
def londonPayload : RawWeather :=
  { location := some { name := some ("London"), country := some ("GB")
                       lat := some 51.5, lon := some (-0.13)
                       localtime := some ("2024-01-01 12:00") }
    current := some { temp_c := some 15.4, feelslike_c := some 14.0
                      condition := some { text := some ("Cloudy")
                                          icon := some ("//x/03d.png") }
                      pressure_mb := some 1012, humidity := some 81
                      wind_kph := some 10, wind_degree := some 200
                      wind_dir := some ("SW"), vis_km := some 10
                      air_quality := some [], is_day := some 1 } }

/-- Upstream stub that always answers 200 with the London payload. -/
def londonUpstream : String → UpstreamResult :=
  fun _ => .resolved 200 (some londonPayload)

/-- Upstream stub for an HTTP 400 whose body carries the provider message
of the specification's city-unknown test vector. -/
def notFoundUpstream : String → UpstreamResult :=
  fun _ => .rejected (some "No matching location found.")
             "Request failed with status code 400"

/-- The cache as initialised in `weatherService.js` with the default
configuration: empty, TTL 600 seconds, at most 100 keys. -/
def emptyCache : NodeCache := { entries := [], stdTTL := 600, maxKeys := 100 }

/-! ### Helper lemmas about the cache model -/

theorem ncGet_of_find_none {c : NodeCache} {k : String} (now : Nat)
    (h : ncFind c k = none) : ncGet c k now = (none, c) := by
  simp [ncGet, h]

theorem ncGet_of_find_live {c : NodeCache} {k : String} {e : CacheEntry} {now : Nat}
    (h : ncFind c k = some e) (hl : entryExpired e now = false) :
    ncGet c k now = (some e.value, c) := by
  simp [ncGet, h, hl]

theorem ncGet_snd_length_le (c : NodeCache) (k : String) (now : Nat) :
    (ncGet c k now).2.entries.length ≤ c.entries.length := by
  unfold ncGet
  cases hf : ncFind c k with
  | none => simp
  | some e =>
    by_cases he : entryExpired e now
    · simpa [he] using (List.eraseP_sublist c.entries).length_le
    · simp [he]

theorem ncGet_snd_opts (c : NodeCache) (k : String) (now : Nat) :
    (ncGet c k now).2.maxKeys = c.maxKeys ∧ (ncGet c k now).2.stdTTL = c.stdTTL := by
  unfold ncGet
  cases hf : ncFind c k with
  | none => simp
  | some e => by_cases he : entryExpired e now <;> simp [he]

theorem ncSet_ok_length {c c2 : NodeCache} {k : String} {v : NormalizedWeather}
    {now : Nat} (h : ncSet c k v now = .ok c2) :
    c2.entries.length ≤ c.maxKeys ∧ c2.maxKeys = c.maxKeys := by
  unfold ncSet at h
  split at h
  · exact absurd h (by simp)
  · rename_i hfull
    split at h <;> injection h with h <;> subst h <;> simp <;> omega

theorem ncSet_fresh {c : NodeCache} {k : String} {v : NormalizedWeather}
    {now : Nat} (hfull : c.entries.length < c.maxKeys)
    (habs : ncFind c k = none) :
    ncSet c k v now =
      .ok { c with entries :=
              c.entries ++ [{ key := k, value := v, expiry := now + c.stdTTL * 1000 }] } := by
  unfold ncSet
  rw [if_neg (by omega), habs]
  simp

theorem entryExpired_insert (k : String) (v : NormalizedWeather)
    (now ttl : Nat) :
    entryExpired { key := k, value := v, expiry := now + ttl * 1000 } now = false := by
  simp [entryExpired]

/-! ### Claim theorems -/

/-- C1: a lookup whose normalized key has a live cache entry returns that
entry tagged `fromCache = true` and makes no upstream call; and after a
successful lookup stores a city, an immediate second lookup of a name equal
up to letter case is answered from the cache (`fromCache = true`) with no
second upstream call. -/
theorem c1_cache_hit_no_upstream :
    (∀ (c : NodeCache) (upstream : String → UpstreamResult) (city : String)
       (now : Nat) (v : NormalizedWeather) (c1 : NodeCache),
       ncGet c (serviceCacheKey city) now = (some v, c1) →
       getWeatherByCity c upstream city now =
         { result := .ok { data := v, fromCache := true }
           cache := c1, upstreamCalled := false }) ∧
    (∀ (c : NodeCache) (upstream : String → UpstreamResult)
       (city₁ city₂ : String) (now : Nat) (d : RawWeather),
       jsToLower city₂ = jsToLower city₁ →
       upstream city₁ = .resolved 200 (some d) →
       ncFind c (serviceCacheKey city₁) = none →
       c.entries.length < c.maxKeys →
       (getWeatherByCity (getWeatherByCity c upstream city₁ now).cache
          upstream city₂ now).result =
           .ok { data := formatWeatherData d now, fromCache := true } ∧
       (getWeatherByCity (getWeatherByCity c upstream city₁ now).cache
          upstream city₂ now).upstreamCalled = false) := by
  constructor
  · intro c upstream city now v c1 h
    simp [getWeatherByCity, h]
  · intro c upstream city₁ city₂ now d hcase hup habs hroom
    have hkey : serviceCacheKey city₂ = serviceCacheKey city₁ := by
      simp [serviceCacheKey, hcase]
    have h1 : getWeatherByCity c upstream city₁ now =
        { result := .ok { data := formatWeatherData d now, fromCache := false }
          cache := { c with entries := c.entries ++
                      [{ key := serviceCacheKey city₁
                         value := formatWeatherData d now
                         expiry := now + c.stdTTL * 1000 }] }
          upstreamCalled := true } := by
      simp [getWeatherByCity, ncGet_of_find_none now habs, hup,
        ncSet_fresh hroom habs]
    rw [h1]
    have hfind : ncFind
        { c with entries := c.entries ++
            [{ key := serviceCacheKey city₁
               value := formatWeatherData d now
               expiry := now + c.stdTTL * 1000 }] }
        (serviceCacheKey city₂) = some
          { key := serviceCacheKey city₁
            value := formatWeatherData d now
            expiry := now + c.stdTTL * 1000 } := by
      unfold ncFind at habs ⊢
      simp [hkey, List.find?_append, habs]
    have hget := ncGet_of_find_live hfind (entryExpired_insert _ _ now c.stdTTL)
    simp [getWeatherByCity, hget]

/-- Helper: JS rounding commutes with shifting by the integer 2. -/
theorem jsRound_sub_two (x : ℚ) : jsRound (x - 2) = jsRound x - 2 := by
  unfold jsRound
  rw [show x - 2 + 1/2 = x + 1/2 - (2 : ℤ) by push_cast; ring, Int.floor_sub_int]

/-- Helper: JS rounding commutes with shifting by the integer 2, upward. -/
theorem jsRound_add_two (x : ℚ) : jsRound (x + 2) = jsRound x + 2 := by
  unfold jsRound
  rw [show x + 2 + 1/2 = x + 1/2 + (2 : ℤ) by push_cast; ring, Int.floor_add_int]

/-- C2: the service transforms a successful payload by rounding the current
and feels-like temperatures to the nearest integer, deriving `temp_min` and
`temp_max` as the current temperature minus and plus 2 degrees, and mapping
`is_day = 1` to `"day"` and every other value to `"night"`; on the
specification's London payload, `lookup("london")` returns temperature 15,
feels-like 14, min 13, max 17, and `is_day = "day"`. -/
theorem c2_format_weather_transform :
    (∀ (d : RawWeather) (now : Nat) (cur : Current) (q : ℚ),
       d.current = some cur → cur.temp_c = some q →
       (formatWeatherData d now).main.temp = .int (jsRound q) ∧
       (formatWeatherData d now).main.temp_min = .int (jsRound q - 2) ∧
       (formatWeatherData d now).main.temp_max = .int (jsRound q + 2)) ∧
    (∀ (d : RawWeather) (now : Nat) (cur : Current) (q : ℚ),
       d.current = some cur → cur.feelslike_c = some q →
       (formatWeatherData d now).main.feels_like = .int (jsRound q)) ∧
    (∀ (d : RawWeather) (now : Nat) (cur : Current) (v : Int),
       d.current = some cur → cur.is_day = some v →
       (formatWeatherData d now).is_day = (if v = 1 then "day" else "night")) ∧
    (getWeatherByCity emptyCache londonUpstream ("london") 0).result =
      .ok { data := formatWeatherData londonPayload 0, fromCache := false } ∧
    (formatWeatherData londonPayload 0).main.temp = .int 15 ∧
    (formatWeatherData londonPayload 0).main.feels_like = .int 14 ∧
    (formatWeatherData londonPayload 0).main.temp_min = .int 13 ∧
    (formatWeatherData londonPayload 0).main.temp_max = .int 17 ∧
    (formatWeatherData londonPayload 0).is_day = "day" := by
  refine ⟨?_, ?_, ?_, rfl, ?_, ?_, ?_, ?_, rfl⟩
  · intro d now cur q hcur hq
    refine ⟨?_, ?_, ?_⟩
    · simp [formatWeatherData, hcur, hq, jsRoundU]
    · simp [formatWeatherData, hcur, hq, jsRoundU, jsRound_sub_two]
    · simp [formatWeatherData, hcur, hq, jsRoundU, jsRound_add_two]
  · intro d now cur q hcur hq
    simp [formatWeatherData, hcur, hq, jsRoundU]
  · intro d now cur v hcur hv
    simp [formatWeatherData, hcur, hv]
  · norm_num [formatWeatherData, londonPayload, jsRound, jsRoundU]
  · norm_num [formatWeatherData, londonPayload, jsRound, jsRoundU]
  · norm_num [formatWeatherData, londonPayload, jsRound, jsRoundU]
  · norm_num [formatWeatherData, londonPayload, jsRound, jsRoundU]

/-- Witness for C2 at the London payload: its present current object and
temperatures discharge the hypotheses of the rounding and day-flag parts. -/
theorem c2_format_weather_transform_witness :
    (formatWeatherData londonPayload 0).main.temp = .int (jsRound (15.4 : ℚ)) ∧
    (formatWeatherData londonPayload 0).main.feels_like = .int (jsRound (14.0 : ℚ)) ∧
    (formatWeatherData londonPayload 0).is_day =
      (if (1 : Int) = 1 then "day" else "night") :=
  ⟨(c2_format_weather_transform.1 londonPayload 0 _ (15.4 : ℚ) rfl rfl).1,
   c2_format_weather_transform.2.1 londonPayload 0 _ (14.0 : ℚ) rfl rfl,
   c2_format_weather_transform.2.2.1 londonPayload 0 _ 1 rfl rfl⟩

/-- Sample normalized value used by the concrete witnesses. -/
def sampleVal : NormalizedWeather := formatWeatherData londonPayload 0

/-- Concrete cache holding one London entry inserted at time 0 with the
default TTL (expiry at 600000 ms). -/
def londonCache : NodeCache :=
  { entries := [{ key := "weather_london", value := sampleVal, expiry := 600000 }]
    stdTTL := 600, maxKeys := 100 }

/-- Concrete cache at capacity (maxKeys = 1) holding a Paris entry. -/
def fullCache : NodeCache :=
  { entries := [{ key := "weather_paris", value := sampleVal, expiry := 999999999 }]
    stdTTL := 600, maxKeys := 1 }

/-- Witness for C1 at concrete inputs: a live entry is served from the cache
with no upstream call, and a second case-variant lookup right after a
successful first one is a cache hit. -/
theorem c1_cache_hit_no_upstream_witness :
    getWeatherByCity londonCache londonUpstream ("London") 5 =
      { result := .ok { data := sampleVal, fromCache := true }
        cache := londonCache, upstreamCalled := false } ∧
    (getWeatherByCity (getWeatherByCity emptyCache londonUpstream ("London") 0).cache
        londonUpstream ("LONDON") 0).result =
      .ok { data := formatWeatherData londonPayload 0, fromCache := true } ∧
    (getWeatherByCity (getWeatherByCity emptyCache londonUpstream ("London") 0).cache
        londonUpstream ("LONDON") 0).upstreamCalled = false := by
  refine ⟨?_, ?_, ?_⟩
  · exact c1_cache_hit_no_upstream.1 londonCache londonUpstream ("London") 5 sampleVal
      londonCache rfl
  · exact (c1_cache_hit_no_upstream.2 emptyCache londonUpstream ("London") ("LONDON") 0
      londonPayload (by decide) rfl rfl (by decide)).1
  · exact (c1_cache_hit_no_upstream.2 emptyCache londonUpstream ("London") ("LONDON") 0
      londonPayload (by decide) rfl rfl (by decide)).2

/-- Helper: the cache state after a lookup is either the post-`get` state or
the result of a successful `set` on it. -/
theorem lookup_cache_sources (c : NodeCache) (upstream : String → UpstreamResult)
    (city : String) (now : Nat) :
    (getWeatherByCity c upstream city now).cache = (ncGet c (serviceCacheKey city) now).2 ∨
    ∃ d c2, ncSet (ncGet c (serviceCacheKey city) now).2 (serviceCacheKey city)
        (formatWeatherData d now) now = .ok c2 ∧
      (getWeatherByCity c upstream city now).cache = c2 := by
  unfold getWeatherByCity
  rcases hg : ncGet c (serviceCacheKey city) now with ⟨r, c1⟩
  cases r with
  | some v => left; rfl
  | none =>
    cases hu : upstream city with
    | resolved status body =>
      cases body with
      | some d =>
        by_cases hs : status = 200
        · subst hs
          simp only [if_pos]
          cases hset : ncSet c1 (serviceCacheKey city) (formatWeatherData d now) now with
          | ok c2 => right; exact ⟨d, c2, hset, rfl⟩
          | error m => left; simp [hg]
        · simp only [if_neg hs]; left; simp [hg]
      | none => left; simp [hg]
    | rejected pm em => left; simp [hg]

/-- Helper: a `set` on a cache with room always succeeds. -/
theorem ncSet_ok_of_room {c : NodeCache} {k : String} {v : NormalizedWeather}
    {now : Nat} (h : c.entries.length < c.maxKeys) :
    ∃ c2, ncSet c k v now = .ok c2 := by
  unfold ncSet
  rw [if_neg (by omega)]
  by_cases hf : (ncFind c k).isSome <;> simp [hf]

/-- C3 (amended): the cache never exceeds its configured maximum number of
entries — every lookup preserves the bound — but when a successful upstream
fetch would store a fresh key while the store is at capacity, node-cache
rejects the insert (ECACHEFULL) and the whole lookup fails; no entry is
evicted. -/
theorem c3_cache_bound_insert_rejected :
    (∀ (c : NodeCache) (upstream : String → UpstreamResult) (city : String)
       (now : Nat),
       c.entries.length ≤ c.maxKeys →
       (getWeatherByCity c upstream city now).cache.entries.length ≤ c.maxKeys ∧
       (getWeatherByCity c upstream city now).cache.maxKeys = c.maxKeys) ∧
    (∀ (c : NodeCache) (upstream : String → UpstreamResult) (city : String)
       (now : Nat) (d : RawWeather),
       ncFind c (serviceCacheKey city) = none →
       c.maxKeys ≤ c.entries.length →
       upstream city = .resolved 200 (some d) →
       getWeatherByCity c upstream city now =
         { result := .error (failPre ++ ecachefullMsg)
           cache := c, upstreamCalled := true }) := by
  constructor
  · intro c upstream city now hinv
    have hlen := ncGet_snd_length_le c (serviceCacheKey city) now
    have hopt := ncGet_snd_opts c (serviceCacheKey city) now
    rcases lookup_cache_sources c upstream city now with h | ⟨d, c2, hset, h⟩
    · rw [h]; exact ⟨le_trans hlen hinv, hopt.1⟩
    · rw [h]
      have hs := ncSet_ok_length hset
      exact ⟨le_trans hs.1 (le_of_eq hopt.1), hs.2.trans hopt.1⟩
  · intro c upstream city now d habs hfull hup
    have hset : ncSet c (serviceCacheKey city) (formatWeatherData d now) now =
        .error ecachefullMsg := by
      unfold ncSet; rw [if_pos hfull]
    simp [getWeatherByCity, ncGet_of_find_none now habs, hup, hset]

/-- Witness for C3 at concrete inputs: on a full one-slot cache the bound is
preserved and a lookup of a fresh city fails with the ECACHEFULL-derived
message, leaving the cache untouched. -/
theorem c3_cache_bound_insert_rejected_witness :
    (getWeatherByCity fullCache londonUpstream ("london") 0).cache.entries.length ≤ 1 ∧
    getWeatherByCity fullCache londonUpstream ("london") 0 =
      { result := .error (failPre ++ ecachefullMsg)
        cache := fullCache, upstreamCalled := true } := by
  refine ⟨?_, ?_⟩
  · exact (c3_cache_bound_insert_rejected.1 fullCache londonUpstream ("london") 0
      (by decide)).1
  · exact c3_cache_bound_insert_rejected.2 fullCache londonUpstream ("london") 0
      londonPayload rfl (by decide) rfl

/-- Counterexample to C3 as stated: with the one-slot cache at capacity, a
lookup of a new city with a successful upstream response does not evict the
oldest entry and store the new one — it fails outright and the cache still
holds only the old Paris entry. -/
theorem c3_evict_oldest_counterexample :
    (getWeatherByCity fullCache londonUpstream ("london") 0).result =
      .error ("Failed to fetch weather data: Cache max keys amount exceeded") ∧
    (getWeatherByCity fullCache londonUpstream ("london") 0).cache = fullCache ∧
    ncFind (getWeatherByCity fullCache londonUpstream ("london") 0).cache
      (serviceCacheKey ("london")) = none := by
  refine ⟨rfl, rfl, rfl⟩

/-- C4: an entry whose TTL has elapsed is not served: the next lookup of its
key calls upstream, any successful result is tagged `fromCache = false`, and
with a successful 200 response the lookup returns the freshly formatted
data. -/
theorem c4_ttl_expiry_checked_lazily :
    ∀ (c : NodeCache) (upstream : String → UpstreamResult) (city : String)
      (now : Nat) (e : CacheEntry),
      ncFind c (serviceCacheKey city) = some e →
      e.expiry ≠ 0 → e.expiry < now →
      (getWeatherByCity c upstream city now).upstreamCalled = true ∧
      (∀ r, (getWeatherByCity c upstream city now).result = .ok r →
         r.fromCache = false) ∧
      (∀ d, upstream city = .resolved 200 (some d) →
         c.entries.length ≤ c.maxKeys →
         (getWeatherByCity c upstream city now).result =
           .ok { data := formatWeatherData d now, fromCache := false }) := by
  intro c upstream city now e hfind hnz hlt
  have hfind' : List.find? (fun e2 => e2.key == serviceCacheKey city) c.entries
      = some e := hfind
  have hexp : entryExpired e now = true := by
    simp [entryExpired, hnz, hlt]
  have hget : ncGet c (serviceCacheKey city) now =
      (none, { c with entries :=
        c.entries.eraseP (fun e2 => e2.key == serviceCacheKey city) }) := by
    simp [ncGet, hfind, hexp]
  have hmem := List.mem_of_find?_eq_some hfind'
  have hpa := List.find?_some hfind'
  have herase : (c.entries.eraseP
      (fun e2 => e2.key == serviceCacheKey city)).length + 1 = c.entries.length :=
    List.length_eraseP_add_one hmem hpa
  unfold getWeatherByCity
  rw [hget]
  dsimp only
  cases hu : upstream city with
  | rejected pm em =>
    refine ⟨rfl, ?_, ?_⟩
    · intro r hr; simp at hr
    · intro d hd _; simp at hd
  | resolved status body =>
    cases body with
    | none =>
      refine ⟨rfl, ?_, ?_⟩
      · intro r hr; simp at hr
      · intro d hd _; simp at hd
    | some d =>
      by_cases hs : status = 200
      · subst hs
        dsimp only
        rw [if_pos rfl]
        cases hset : ncSet
            { c with entries :=
                c.entries.eraseP (fun e2 => e2.key == serviceCacheKey city) }
            (serviceCacheKey city) (formatWeatherData d now) now with
        | ok c2 =>
          refine ⟨rfl, ?_, ?_⟩
          · intro r hr
            simp only [Except.ok.injEq] at hr
            rw [← hr]
          · intro d' hd hinv
            obtain rfl : d = d' := by simpa using hd
            rfl
        | error m =>
          refine ⟨rfl, ?_, ?_⟩
          · intro r hr; simp at hr
          · intro d' hd hinv
            obtain rfl : d = d' := by simpa using hd
            have hroom : (c.entries.eraseP
                (fun e2 => e2.key == serviceCacheKey city)).length < c.maxKeys := by
              omega
            obtain ⟨c2, hok⟩ := @ncSet_ok_of_room
              { c with entries :=
                  c.entries.eraseP (fun e2 => e2.key == serviceCacheKey city) }
              (serviceCacheKey city) (formatWeatherData d now) now hroom
            rw [hset] at hok
            cases hok
      · dsimp only
        rw [if_neg hs]
        refine ⟨rfl, ?_, ?_⟩
        · intro r hr; simp at hr
        · intro d' hd _
          simp at hd
          exact absurd hd.1 hs

/-- Witness for C4 at concrete inputs: the London entry stored at time 0
with TTL 600 s is expired at time 600001 ms, so the lookup calls upstream
again and returns fresh data tagged `fromCache = false`. -/
theorem c4_ttl_expiry_checked_lazily_witness :
    (getWeatherByCity londonCache londonUpstream ("london") 600001).upstreamCalled = true ∧
    (getWeatherByCity londonCache londonUpstream ("london") 600001).result =
      .ok { data := formatWeatherData londonPayload 600001, fromCache := false } := by
  refine ⟨?_, ?_⟩
  · exact (c4_ttl_expiry_checked_lazily londonCache londonUpstream ("london") 600001
      { key := "weather_london", value := sampleVal, expiry := 600000 }
      rfl (by decide) (by decide)).1
  · exact (c4_ttl_expiry_checked_lazily londonCache londonUpstream ("london") 600001
      { key := "weather_london", value := sampleVal, expiry := 600000 }
      rfl (by decide) (by decide)).2.2 londonPayload rfl (by decide)

/-- C5: a missing, empty or whitespace-only city parameter is rejected by
the controller with the 400 invalid-input response before the service runs:
the cache is untouched and no upstream call is made. -/
theorem c5_blank_city_rejected :
    (∀ (c : NodeCache) (upstream : String → UpstreamResult) (now : Nat),
       handleGetWeatherByCity c upstream none now =
         { response := .failure 400 invalidCityMsg
           cache := c, upstreamCalled := false }) ∧
    (∀ (c : NodeCache) (upstream : String → UpstreamResult) (city : String)
       (now : Nat), jsTrim city = "" →
       handleGetWeatherByCity c upstream (some city) now =
         { response := .failure 400 invalidCityMsg
           cache := c, upstreamCalled := false }) := by
  refine ⟨fun c upstream now => rfl, fun c upstream city now h => ?_⟩
  simp [handleGetWeatherByCity, h]

/-- Witness for C5 at the specification's concrete inputs: the empty and the
all-blank city names are both rejected with the 400 response, leaving the
cache unchanged and making no upstream call. -/
theorem c5_blank_city_rejected_witness :
    handleGetWeatherByCity emptyCache londonUpstream (some "") 0 =
      { response := .failure 400 invalidCityMsg
        cache := emptyCache, upstreamCalled := false } ∧
    handleGetWeatherByCity emptyCache londonUpstream (some "   ") 0 =
      { response := .failure 400 invalidCityMsg
        cache := emptyCache, upstreamCalled := false } := by
  exact ⟨c5_blank_city_rejected.2 emptyCache londonUpstream ("") 0 rfl,
         c5_blank_city_rejected.2 emptyCache londonUpstream ("   ") 0 rfl⟩

/-- C6 (amended): when the key is uncached and the upstream fetch is
rejected (non-2xx or network failure) or resolves with a falsy body or a
non-200 status, the lookup fails with the fixed-prefix error carrying the
provider message when one is present and nonempty and a generic message
otherwise, and the cache is left exactly as it was: errors are never
cached.  But a 200 response whose body is truthy is never treated as
malformed, whatever its shape: it is formatted leniently, cached under the
key, and returned as a success tagged `fromCache = false`. -/
theorem c6_failure_never_cached_truthy_accepted :
    ∀ (c : NodeCache) (upstream : String → UpstreamResult) (city : String)
      (now : Nat),
      ncFind c (serviceCacheKey city) = none →
      ((∀ pm em, upstream city = .rejected (some pm) em → pm ≠ "" →
          getWeatherByCity c upstream city now =
            { result := .error (failPre ++ pm), cache := c, upstreamCalled := true }) ∧
       (∀ em, upstream city = .rejected none em →
          getWeatherByCity c upstream city now =
            { result := .error (failPre ++ em), cache := c, upstreamCalled := true }) ∧
       (∀ status, upstream city = .resolved status none →
          getWeatherByCity c upstream city now =
            { result := .error (failPre ++ "Invalid response from weather API")
              cache := c, upstreamCalled := true }) ∧
       (∀ status d, upstream city = .resolved status (some d) → status ≠ 200 →
          getWeatherByCity c upstream city now =
            { result := .error (failPre ++ "Invalid response from weather API")
              cache := c, upstreamCalled := true }) ∧
       (∀ d, upstream city = .resolved 200 (some d) →
          c.entries.length < c.maxKeys →
          getWeatherByCity c upstream city now =
            { result := .ok { data := formatWeatherData d now, fromCache := false }
              cache := { c with entries := c.entries ++
                  [{ key := serviceCacheKey city
                     value := formatWeatherData d now
                     expiry := now + c.stdTTL * 1000 }] }
              upstreamCalled := true })) := by
  intro c upstream city now habs
  have hget := @ncGet_of_find_none c (serviceCacheKey city) now habs
  refine ⟨?_, ?_, ?_, ?_, ?_⟩
  · intro pm em hu hne
    simp [getWeatherByCity, hget, hu, providerOrErr, hne]
  · intro em hu
    simp [getWeatherByCity, hget, hu, providerOrErr]
  · intro status hu
    simp [getWeatherByCity, hget, hu]
  · intro status d hu hs
    simp [getWeatherByCity, hget, hu, hs]
  · intro d hu hroom
    simp [getWeatherByCity, hget, hu, ncSet_fresh hroom habs]

/-- A truthy JSON body carrying none of the expected WeatherAPI pieces:
the observable shape of, for example, the body `{"foo": 1}`. -/
def junkBody : RawWeather := { location := none, current := none }

/-- Upstream stub answering HTTP 200 with the truthy schema-garbage body. -/
def junkUpstream : String → UpstreamResult :=
  fun _ => .resolved 200 (some junkBody)

/-- Witness for C6 at concrete inputs: the specification's upstream HTTP
400 leaves the empty cache empty and fails with the provider message under
the fixed prefix, while a truthy schema-garbage 200 body is accepted as a
success. -/
theorem c6_failure_never_cached_truthy_accepted_witness :
    getWeatherByCity emptyCache notFoundUpstream ("Atlantis") 0 =
      { result := .error ("Failed to fetch weather data: No matching location found.")
        cache := emptyCache, upstreamCalled := true } ∧
    (getWeatherByCity emptyCache junkUpstream ("Paris") 0).result =
      .ok { data := formatWeatherData junkBody 0, fromCache := false } := by
  refine ⟨?_, ?_⟩
  · exact (c6_failure_never_cached_truthy_accepted emptyCache notFoundUpstream
      ("Atlantis") 0 rfl).1
      ("No matching location found.") ("Request failed with status code 400") rfl (by decide)
  · rw [(c6_failure_never_cached_truthy_accepted emptyCache junkUpstream
      ("Paris") 0 rfl).2.2.2.2 junkBody rfl (by decide)]

/-- Counterexample to C6 as stated: a malformed upstream response that is a
200 with a truthy but schema-garbage body does not make the lookup fail.
The body passes the truthiness-only check at `weatherService.js:38`, is
formatted into a garbage object (undefined city, NaN temperatures, is_day
`night`), cached under the key, and returned as a success tagged
`fromCache = false`. -/
theorem c6_malformed_truthy_body_counterexample :
    (getWeatherByCity emptyCache junkUpstream ("Atlantis") 0).result =
      .ok { data := formatWeatherData junkBody 0, fromCache := false } ∧
    (getWeatherByCity emptyCache junkUpstream ("Atlantis") 0).cache.entries.length = 1 ∧
    (formatWeatherData junkBody 0).city = none ∧
    (formatWeatherData junkBody 0).main.temp = .nan ∧
    (formatWeatherData junkBody 0).main.temp_min = .nan ∧
    (formatWeatherData junkBody 0).is_day = "night" := by
  exact ⟨rfl, rfl, rfl, rfl, rfl, rfl⟩

/-- C7 (amended): the service computes its cache key by prefixing
`weather_` to the lower-cased — but not trimmed — city name, so two inputs
equal up to letter case share one cache entry, while inputs differing in
leading or trailing whitespace do not. -/
theorem c7_cache_key_lowercase_untrimmed :
    (∀ city : String, serviceCacheKey city = "weather_" ++ jsToLower city) ∧
    (∀ c₁ c₂ : String, jsToLower c₁ = jsToLower c₂ →
       serviceCacheKey c₁ = serviceCacheKey c₂) := by
  refine ⟨fun city => rfl, fun c₁ c₂ h => ?_⟩
  simp [serviceCacheKey, h]

/-- Witness for C7 (amended) at concrete inputs: two case-variants of the
same name produce the same cache key. -/
theorem c7_cache_key_lowercase_untrimmed_witness :
    serviceCacheKey ("LONDON") = serviceCacheKey ("london") :=
  c7_cache_key_lowercase_untrimmed.2 ("LONDON") ("london") (by decide)

/-- Counterexample to C7 as stated: the key is not computed from the
trimmed name — a leading space changes the key, so names differing only in
leading or trailing whitespace do not map to the same cache entry. -/
theorem c7_trimmed_key_counterexample :
    serviceCacheKey (" London") ≠ serviceCacheKey ("London") ∧
    serviceCacheKey (" London") ≠ "weather_" ++ jsToLower (jsTrim (" London")) := by
  exact ⟨by decide, by decide⟩

/-- C8: the claim fails because of a controller defect, not a missing
branch.  `city` is declared with `const` inside the `try` block of the
handler, but the catch block's first statement interpolates `city` into a
log message; on every failed lookup the handler therefore raises a
ReferenceError before its 404/500 logic runs, the async handler's promise
rejects, and no HTTP response is sent at all.  At the provider's explicit
city-unknown signal the outcome is the crash — neither the distinct 404
the claim (and the controller's own swagger documentation) promise, nor
any failure response. -/
theorem c8_lookup_failure_crashes_controller :
    handleGetWeatherByCity emptyCache notFoundUpstream (some "Atlantis") 0 =
      { response := .crashed ("ReferenceError: city is not defined")
        cache := emptyCache, upstreamCalled := true } := rfl

/-- C9: every error thrown by the service-level lookup is a plain message
string starting with the fixed prefix `Failed to fetch weather data: `,
whatever the failure cause. -/
theorem c9_failures_share_fixed_prefix :
    ∀ (c : NodeCache) (upstream : String → UpstreamResult) (city : String)
      (now : Nat) (m : String),
      (getWeatherByCity c upstream city now).result = .error m →
      ∃ rest, m = failPre ++ rest := by
  intro c upstream city now m h
  unfold getWeatherByCity at h
  rcases hg : ncGet c (serviceCacheKey city) now with ⟨ro, c1⟩
  rw [hg] at h
  cases ro with
  | some v => simp at h
  | none =>
    cases hu : upstream city with
    | rejected pm em =>
      rw [hu] at h
      dsimp only at h
      simp at h
      exact ⟨_, h.symm⟩
    | resolved status body =>
      rw [hu] at h
      cases body with
      | none =>
        dsimp only at h
        simp at h
        exact ⟨_, h.symm⟩
      | some d =>
        dsimp only at h
        by_cases hs : status = 200
        · subst hs
          rw [if_pos rfl] at h
          cases hset : ncSet c1 (serviceCacheKey city) (formatWeatherData d now) now with
          | ok c2 => rw [hset] at h; simp at h
          | error msg =>
            rw [hset] at h
            simp at h
            exact ⟨_, h.symm⟩
        · rw [if_neg hs] at h
          simp at h
          exact ⟨_, h.symm⟩

/-- Witness for C9 at a concrete input: the city-unknown failure message
indeed starts with the fixed prefix. -/
theorem c9_failures_share_fixed_prefix_witness :
    ∃ rest, ("Failed to fetch weather data: No matching location found.") =
      failPre ++ rest :=
  c9_failures_share_fixed_prefix emptyCache notFoundUpstream ("Atlantis") 0
    ("Failed to fetch weather data: No matching location found.") rfl

/-- C10: the cache stores only the bare `NormalizedWeather` value — a type
with no `fromCache` field — and the flag is re-derived on every return: a
hit returns the stored value paired with `fromCache = true` and leaves the
cache untouched, and a miss stores exactly the unflagged formatted value
while returning it paired with `fromCache = false`. -/
theorem c10_fromcache_never_stored :
    (∀ (c : NodeCache) (upstream : String → UpstreamResult) (city : String)
       (now : Nat) (e : CacheEntry),
       ncFind c (serviceCacheKey city) = some e →
       entryExpired e now = false →
       getWeatherByCity c upstream city now =
         { result := .ok { data := e.value, fromCache := true }
           cache := c, upstreamCalled := false }) ∧
    (∀ (c : NodeCache) (upstream : String → UpstreamResult) (city : String)
       (now : Nat) (d : RawWeather),
       ncFind c (serviceCacheKey city) = none →
       c.entries.length < c.maxKeys →
       upstream city = .resolved 200 (some d) →
       getWeatherByCity c upstream city now =
         { result := .ok { data := formatWeatherData d now, fromCache := false }
           cache := { c with entries := c.entries ++
               [{ key := serviceCacheKey city
                  value := formatWeatherData d now
                  expiry := now + c.stdTTL * 1000 }] }
           upstreamCalled := true } ∧
       ncFind { c with entries := c.entries ++
               [{ key := serviceCacheKey city
                  value := formatWeatherData d now
                  expiry := now + c.stdTTL * 1000 }] } (serviceCacheKey city) =
         some { key := serviceCacheKey city
                value := formatWeatherData d now
                expiry := now + c.stdTTL * 1000 }) := by
  constructor
  · intro c upstream city now e hfind hlive
    have hget := ncGet_of_find_live hfind hlive
    simp [getWeatherByCity, hget]
  · intro c upstream city now d habs hroom hup
    refine ⟨?_, ?_⟩
    · simp [getWeatherByCity, ncGet_of_find_none now habs, hup, ncSet_fresh hroom habs]
    · unfold ncFind at habs ⊢
      simp [List.find?_append, habs]

/-- Witness for C10 at concrete inputs: a hit returns the stored London
value re-tagged without touching the cache, and a miss on the empty cache
stores the bare formatted value. -/
theorem c10_fromcache_never_stored_witness :
    getWeatherByCity londonCache londonUpstream ("london") 5 =
      { result := .ok { data := sampleVal, fromCache := true }
        cache := londonCache, upstreamCalled := false } ∧
    getWeatherByCity emptyCache londonUpstream ("london") 0 =
      { result := .ok { data := formatWeatherData londonPayload 0, fromCache := false }
        cache := { entries := [{ key := "weather_london"
                                 value := formatWeatherData londonPayload 0
                                 expiry := 600000 }]
                   stdTTL := 600, maxKeys := 100 }
        upstreamCalled := true } := by
  refine ⟨?_, ?_⟩
  · exact c10_fromcache_never_stored.1 londonCache londonUpstream ("london") 5
      { key := "weather_london", value := sampleVal, expiry := 600000 } rfl rfl
  · exact (c10_fromcache_never_stored.2 emptyCache londonUpstream ("london") 0
      londonPayload rfl (by decide) rfl).1
